import Mathlib

/-!
Verification development for the ScholarViz tutoring backend.

The Python sources under `app/` are shallowly embedded below.  Text is
modelled as `List Char` (Python `str`); machine-level details that the
claims depend on are modelled explicitly:

* `scipy` sparse matrices: `bool(m)` is `m.nnz != 0` when the shape is
  `(1, 1)` and raises `ValueError` ("The truth value of an array with more
  than one element is ambiguous...") for every other shape.  The guard
  `if not self.tfidf or not q.strip()` in `Librarian.retrieve` evaluates
  `bool(self.tfidf)` first, so this matters.
* `numpy.argsort` (ascending) is modelled as the stable ascending argsort,
  i.e. indices ordered lexicographically by `(score, index)`; for the
  tiny arrays appearing in concrete counterexamples numpy's introsort
  coincides with this model.
* Python `sorted(..., reverse=True)` is stable: ties keep original order.
* TF-IDF scores are real-valued and produced by an external library; they
  are abstracted as an arbitrary score assignment `Nat → ℚ` (per query),
  which the relevant theorems quantify over.

Fallible code returns `Except Str`; a raised exception that the FastAPI
handler turns into an HTTP 500 is `Except.error`.
-/

/-- Python strings are modelled as lists of characters. -/
abbrev Str := List Char

/-- Whitespace characters stripped by Python `str.strip()` / split by `str.split()`. -/
def isPySpace (c : Char) : Bool :=
  c = ' ' || c = '\t' || c = '\n' || c = '\x0d' || c = '\x0b' || c = '\x0c'

/-- Python `str.lower()` (ASCII data throughout this repository). -/
def lowerStr (s : Str) : Str := s.map Char.toLower

/-- Python `str.strip()`. -/
def pyStrip (s : Str) : Str :=
  ((s.dropWhile isPySpace).reverse.dropWhile isPySpace).reverse

/-- Helper for `splitWs`: accumulates the current (reversed) token. -/
def splitWsAux : Str → Str → List Str
  | cur, [] => if cur = [] then [] else [cur.reverse]
  | cur, c :: cs =>
    if isPySpace c then
      if cur = [] then splitWsAux [] cs else cur.reverse :: splitWsAux [] cs
    else splitWsAux (c :: cur) cs

/-- Python `str.split()` with no arguments: split on whitespace runs, no empty tokens. -/
def splitWs (s : Str) : List Str := splitWsAux [] s

/-- Python `str.splitlines()` restricted to `'\n'` separators (the only line
separator occurring in this repository's data): like splitting on `'\n'`
but without a trailing empty line when the text ends in `'\n'`, and `[]`
for the empty string. -/
def pySplitlines (s : Str) : List Str :=
  if s = [] then []
  else
    let parts := s.splitOn '\n'
    if parts.getLast? = some [] then parts.dropLast else parts

/-- Python slice `s[a:b]` for `a ≤ b` (clipping at the ends is implicit in
`drop`/`take`). -/
def pySlice (s : Str) (a b : Nat) : Str := (s.drop a).take (b - a)

/-- Does `nd` occur in `hay` starting at position `i`?  (`hay[i:i+len(nd)] == nd`). -/
def occursAt (hay nd : Str) (i : Nat) : Prop := (hay.drop i).take nd.length = nd

instance (hay nd : Str) (i : Nat) : Decidable (occursAt hay nd i) := by
  unfold occursAt; infer_instance

/-- Does `nd` occur at the head of `hay`? -/
def leadMatch : Str → Str → Bool
  | [], _ => true
  | _ :: _, [] => false
  | a :: as_, b :: bs => a = b && leadMatch as_ bs

/-- Python `hay.find(nd)`: index of the first occurrence of `nd` in `hay`
(`some 0` for the empty needle), `none` when absent. -/
def findSub : Str → Str → Option Nat
  | hay, nd =>
    if leadMatch nd hay then some 0
    else
      match hay with
      | [] => none
      | _ :: t => (findSub t nd).map (· + 1)

/-- Python `nd in hay` (substring containment). -/
def containsSub (hay nd : Str) : Bool := (findSub hay nd).isSome

/-- Join a list of strings with a separator (Python `sep.join(xs)`). -/
def joinSep (sep : Str) : List Str → Str
  | [] => []
  | [x] => x
  | x :: y :: xs => x ++ sep ++ joinSep sep (y :: xs)

/-- Decimal representation of a natural number, as a `Str`. -/
def natStr (n : Nat) : Str := (Nat.repr n).data

/-! ## Stable argsort machinery

`idxLe g` orders indices by `(g i, i)` lexicographically; sorting `range n`
by it is the stable ascending argsort of the score vector `g`. -/

/-- Index order: by score, ties by index (stability). -/
def idxLe {α : Type} [LinearOrder α] (g : Nat → α) (i j : Nat) : Prop :=
  g i < g j ∨ (g i = g j ∧ i ≤ j)

instance {α : Type} [LinearOrder α] (g : Nat → α) : DecidableRel (idxLe g) := fun _ _ => by
  unfold idxLe; infer_instance

instance {α : Type} [LinearOrder α] (g : Nat → α) : IsTotal Nat (idxLe g) := by
  constructor
  intro i j
  rcases lt_trichotomy (g i) (g j) with h | h | h
  · exact Or.inl (Or.inl h)
  · rcases Nat.le_total i j with hij | hij
    · exact Or.inl (Or.inr ⟨h, hij⟩)
    · exact Or.inr (Or.inr ⟨h.symm, hij⟩)
  · exact Or.inr (Or.inl h)

instance {α : Type} [LinearOrder α] (g : Nat → α) : IsTrans Nat (idxLe g) := by
  constructor
  intro i j k hij hjk
  rcases hij with h1 | ⟨h1, h1'⟩
  · rcases hjk with h2 | ⟨h2, _⟩
    · exact Or.inl (h1.trans h2)
    · exact Or.inl (h2 ▸ h1)
  · rcases hjk with h2 | ⟨h2, h2'⟩
    · exact Or.inl (h1 ▸ h2)
    · exact Or.inr ⟨h1.trans h2, h1'.trans h2'⟩

/-- Stable ascending argsort of the scores `g 0, …, g (n-1)`
(model of `numpy.argsort` with a stable tie order). -/
def argsortAsc {α : Type} [LinearOrder α] (g : Nat → α) (n : Nat) : List Nat :=
  List.insertionSort (idxLe g) (List.range n)

/-! ## Librarian (`app/librarian.py`) -/

/-- A knowledge-base document (`kb.json` entry: `{id, title, text}`). -/
structure KBDoc where
  id : Str
  title : Str
  text : Str
deriving DecidableEq, Inhabited

/-- A retrieval result (`{"id": ..., "title": ..., "quote": text[:200]}`). -/
structure RetrievalResult where
  id : Str
  title : Str
  quote : Str
deriving DecidableEq, Inhabited

/-- `{"id": item.get("id"), "title": item.get("title"), "quote": text[:200]}`. -/
def mkResult (d : KBDoc) : RetrievalResult :=
  { id := d.id, title := d.title, quote := d.text.take 200 }

/-- `list(np.argsort(scores)[::-1][:top_k])`: reverse the ascending argsort and
truncate to `top_k`. -/
def topIdx {α : Type} [LinearOrder α] (g : Nat → α) (n k : Nat) : List Nat :=
  ((argsortAsc g n).reverse).take k

/-- The body of `Librarian.retrieve` after the guard (lines 31–41): rank all
documents by score, reversed argsort, truncate, build result dicts.
`g i` is the TF-IDF relevance score of document `i` for the query. -/
def retrieveCore (kb : List KBDoc) (g : Nat → ℚ) (k : Nat) : List RetrievalResult :=
  (topIdx g kb.length k).map (fun i => mkResult (kb.getD i default))

/-- Message of the `ValueError` raised by `bool()` on a scipy sparse matrix
with more than one element. -/
def ambiguousMsg : Str :=
  "The truth value of an array with more than one element is ambiguous.".data

/-- `bool(m)` for a scipy sparse matrix of shape `(rows, cols)` with `nnz`
stored entries: defined only for shape `(1, 1)`, otherwise `ValueError`. -/
def sparseBool (rows cols nnz : Nat) : Except Str Bool :=
  if rows = 1 ∧ cols = 1 then Except.ok (decide (nnz ≠ 0)) else Except.error ambiguousMsg

/-- `Librarian.retrieve(q, top_k)` (lines 27–41).  `kb` is the loaded corpus;
when it is empty `self.tfidf` is `None`.  Otherwise `self.tfidf` is the fitted
TF-IDF matrix of shape `(len(kb), vocab)` with `nnz` stored entries, and the
guard `if not self.tfidf or not q.strip(): return []` evaluates
`bool(self.tfidf)` before looking at the query.  The `lru_cache` decorator has
no observable effect on a pure model and is omitted. -/
def retrieve (kb : List KBDoc) (vocab nnz : Nat) (q : Str) (g : Nat → ℚ) (k : Nat) :
    Except Str (List RetrievalResult) :=
  match kb with
  | [] => Except.ok []
  | _ :: _ =>
    match sparseBool kb.length vocab nnz with
    | Except.error e => Except.error e
    | Except.ok b =>
      if b = false then Except.ok []
      else if pyStrip q = [] then Except.ok []
      else Except.ok (retrieveCore kb g k)

/-! ## OntologyMapper (`app/ontology_mapper.py`) -/

/-- An ontology concept node (`{id, label, description, tags, topic}`).
Missing keys are read with `.get(..., "")`-style defaults in the source, so
all fields are total strings/lists here. -/
structure ConceptNode where
  id : Str
  label : Str
  description : Str
  tags : List Str
  topic : Str
deriving DecidableEq, Inhabited

/-- An ontology edge (`{source, target, relation, description}`). -/
structure ConceptEdge where
  source : Str
  target : Str
  relation : Str
  description : Str
deriving DecidableEq, Inhabited

/-- Combined lowercase text: `" ".join([question] + [d.get("quote","") for d in docs]).lower()`. -/
def omCombined (q : Str) (docs : List RetrievalResult) : Str :=
  lowerStr (joinSep " ".data (q :: docs.map (·.quote)))

/-- Per-node score (lines 30–42): `score += 2` if ANY lowercased label token is
a substring of the combined text, `score += 1` if ANY description token is,
and `score += 1` for EACH tag whose lowercase form is a substring.  Written as
the source's sequential accumulation. -/
def omScore (n : ConceptNode) (text : Str) : Nat :=
  let s0 : Nat := 0
  let s1 := if (splitWs (lowerStr n.label)).any (fun tok => containsSub text tok) then s0 + 2 else s0
  let s2 := if (splitWs (lowerStr n.description)).any (fun tok => containsSub text tok) then s1 + 1 else s1
  n.tags.foldl (fun acc t => if containsSub text (lowerStr t) then acc + 1 else acc) s2

/-- `scores.get(id, 0)` where `scores` is the dict built by
`scores[n["id"]] = score` over the nodes in order — a later node with the same
id overwrites an earlier one, hence the reversed lookup. -/
def scoreLookup (nodes : List ConceptNode) (text : Str) (id : Str) : Nat :=
  match nodes.reverse.find? (fun n => decide (n.id = id)) with
  | some n => omScore n text
  | none => 0

/-- Python `sorted(nodes, key=key, reverse=True)` is a STABLE descending sort:
ties keep original order.  Modelled by the stable ascending argsort over the
order-dual of the key. -/
def pySortDescIdx (key : Nat → Nat) (n : Nat) : List Nat :=
  argsortAsc (fun i => OrderDual.toDual (key i)) n

/-- `OntologyMapper.map` node selection (lines 43–52): stable descending sort
by dict-looked-up score, keep score > 0, cap at 7; if empty, fall back to the
first ≤ 3 nodes (in load order) whose non-empty `topic` is a substring of the
combined text. -/
def omSelect (nodes : List ConceptNode) (text : Str) : List ConceptNode :=
  let key : Nat → Nat := fun i => scoreLookup nodes text ((nodes.getD i default).id)
  let ordered := (pySortDescIdx key nodes.length).map (fun i => nodes.getD i default)
  let selected := (ordered.filter (fun n => decide (0 < scoreLookup nodes text n.id))).take 7
  if selected = [] then
    (nodes.filter (fun n => decide (n.topic ≠ []) && containsSub text n.topic)).take 3
  else selected

/-- `OntologyMapper.map` (lines 26–56): select nodes, then keep exactly the
edges whose source AND target ids are in the selected id set. -/
def omMap (nodes : List ConceptNode) (edges : List ConceptEdge) (q : Str)
    (docs : List RetrievalResult) : List ConceptNode × List ConceptEdge :=
  let text := omCombined q docs
  let selected := omSelect nodes text
  let selectedIds := selected.map (·.id)
  (selected, edges.filter (fun e => decide (e.source ∈ selectedIds ∧ e.target ∈ selectedIds)))

/-! ## LabCoach (`app/lab_coach.py`) -/

/-- A lab artifact.  The source reads dict keys `"artifact_id"`, `"id"` and
`"text"`; the two id keys may be absent (`none`). -/
structure Artifact where
  artifact_id : Option Str
  alt_id : Option Str
  text : Str
deriving DecidableEq, Inhabited

/-- A case (`{case_id, topic, artifacts}`); synthetic cases built by the code
carry no `topic` key, modelled as `[]`. -/
structure Case where
  case_id : Str
  topic : Str
  artifacts : List Artifact
deriving DecidableEq, Inhabited

/-- A highlight: line-indexed
`{artifact_id, line, concept_id, reason, line_text}` or span-indexed
`{artifact_id, span: {start, end}, concept_id, excerpt}`. -/
inductive Highlight where
  | line (artifact_id : Str) (line : Int) (concept_id : Str) (reason : Str) (line_text : Str)
  | span (artifact_id : Str) (start stop : Nat) (concept_id : Str) (excerpt : Str)
deriving DecidableEq

/-- `art.get("artifact_id", art.get("id", "artifact-unknown"))` (line 35):
plain `.get` with defaults, no falsiness fall-through. -/
def labArtId (a : Artifact) : Str :=
  a.artifact_id.getD (a.alt_id.getD "artifact-unknown".data)

/-- `f"Matched concept tag '{tag}'."`. -/
def reasonFor (tag : Str) : Str :=
  "Matched concept tag \x27".data ++ tag ++ "\x27.".data

/-- Highlights emitted for one (artifact, node, tag) triple (lines 45–76):
skip the empty tag; one line-indexed highlight per (1-based) line whose
lowercase form contains the lowercase tag; then, if the tag occurs anywhere in
the lowercase full text, exactly one span-indexed highlight at the first
occurrence with a ±30-character excerpt window clipped to the text. -/
def tagEntries (artId : Str) (lines : List Str) (fullLower rawText : Str)
    (nodeId : Str) (tag : Str) : List Highlight :=
  let tl := lowerStr tag
  if tl = [] then []
  else
    (lines.enum.filterMap (fun p =>
      if containsSub (lowerStr p.2) tl then
        some (Highlight.line artId ((p.1 : Int) + 1) nodeId (reasonFor tag) p.2)
      else none))
    ++ (match findSub fullLower tl with
        | some idx =>
          [Highlight.span artId idx (idx + tl.length) nodeId
            (pySlice rawText (idx - 30) (idx + tl.length + 30))]
        | none => [])

/-- Highlights emitted for one node over one artifact: loop over its tags. -/
def nodeEntries (artId : Str) (lines : List Str) (fullLower rawText : Str)
    (node : ConceptNode) : List Highlight :=
  node.tags.flatMap (tagEntries artId lines fullLower rawText node.id)

/-- Highlights emitted for one artifact: loop over the selected nodes.
`lines` is `raw_text.splitlines() if raw_text else []`, which coincides with
`pySplitlines` on the empty string. -/
def artifactEntries (selectedNodes : List ConceptNode) (a : Artifact) : List Highlight :=
  selectedNodes.flatMap (nodeEntries (labArtId a) (pySplitlines a.text) (lowerStr a.text) a.text)

/-- `LabCoach.select_and_highlight` (lines 18–78).  A non-empty
`optional_artifacts` list (Python truthiness) becomes the synthetic case
`"provided"`; otherwise the first case matching the topic, else the first
loaded case, else the empty case `"none"`. -/
def select_and_highlight (cases : List Case) (optional_artifacts : Option (List Artifact))
    (topic : Str) (selected_nodes : List ConceptNode) : Case × List Highlight :=
  let case :=
    match optional_artifacts with
    | some (a :: rest) => { case_id := "provided".data, topic := [], artifacts := a :: rest }
    | _ =>
      match cases.find? (fun c => decide (c.topic = topic)) with
      | some c => c
      | none =>
        match cases with
        | c :: _ => c
        | [] => { case_id := "none".data, topic := [], artifacts := [] }
  (case, case.artifacts.flatMap (artifactEntries selected_nodes))

/-! ## API helpers (`app/api.py`) -/

/-- One chat turn (`ChatTurn`). -/
structure ChatTurn where
  role : Str
  content : Str
deriving DecidableEq

/-- The `/api/ask` request (`AskRequest`). -/
structure AskRequest where
  message : Str
  chat_history : List ChatTurn
  strict_mode : Bool
  user_id : Str
  optional_artifacts : Option (List Artifact)
  ui_topic : Option Str
deriving DecidableEq

/-- The four known topic names (line 75). -/
def knownTopics : List Str :=
  ["phishing".data, "lateral_movement".data, "privilege_escalation".data,
   "data_exfiltration".data]

/-- `_normalize_ui_topic` (lines 69–77): strip, lowercase, hyphens to
underscores; `None` for an absent or blank topic.  The source's membership
test against the known-topic set returns `t` in BOTH branches, so it is
omitted here (the normalized string is returned whether or not it is a known
topic). -/
def normalize_ui_topic (ui : Option Str) : Option Str :=
  match ui with
  | none => none
  | some s =>
    let t := (lowerStr (pyStrip s)).map (fun c => if c = '-' then '_' else c)
    if t = [] then none else some t

/-- `detect_topic` (lines 51–66): a forced (truthy) normalized UI topic wins;
otherwise keyword heuristics over the lowercased message. -/
def detect_topic (text : Str) (ui : Option Str) : Str :=
  match normalize_ui_topic ui with
  | some forced =>
    -- a `some` value is always non-empty, but the source tests `if forced:`
    if forced = [] then detectTopicHeuristic text else forced
  | none => detectTopicHeuristic text
where
  detectTopicHeuristic (text : Str) : Str :=
    let t := lowerStr text
    if containsSub t "phish".data || containsSub t "email".data ||
       containsSub t "verify".data || containsSub t "link".data then "phishing".data
    else if containsSub t "lateral".data || containsSub t "smb".data ||
            containsSub t "pivot".data || containsSub t "credential".data then
      "lateral_movement".data
    else if containsSub t "privilege".data || containsSub t "privesc".data then
      "privilege_escalation".data
    else if containsSub t "exfil".data || containsSub t "data theft".data then
      "data_exfiltration".data
    else "unknown".data

/-- The scope allow-list of `_is_in_scope` (lines 280–298). -/
def scopeKeywords : List Str :=
  ["phish".data, "email".data, "smb".data, "lateral".data, "credential".data,
   "password".data, "malware".data, "incident".data, "attack".data,
   "security".data, "exfil".data, "privilege".data, "log".data, "pcap".data]

/-- `_is_in_scope` (lines 280–298): any allow-list keyword occurs in the
lowercased message. -/
def isInScope (message : Str) : Bool :=
  scopeKeywords.any (fun k => containsSub (lowerStr message) k)

/-- The id key used when pooling a case artifact:
`a.get("artifact_id") or a.get("id")` — Python `or` falls through on a
missing key OR an empty string. -/
def artifactPoolKey (a : Artifact) : Option Str :=
  match a.artifact_id with
  | some s => if s = [] then (match a.alt_id with
      | some s2 => if s2 = [] then none else some s2
      | none => none) else some s
  | none =>
    match a.alt_id with
    | some s2 => if s2 = [] then none else some s2
    | none => none

/-- The `artifact_id:L<line>` reference for a (line-indexed) highlight, when
it passes validation (`isinstance(aid, str) and aid and isinstance(line, int)
and line > 0`); `none` for span highlights, which carry no `"line"` key. -/
def lineRef (h : Highlight) : Option Str :=
  match h with
  | Highlight.line aid ln _ _ _ =>
    if aid ≠ [] ∧ 0 < ln then some (aid ++ ":L".data ++ natStr ln.toNat) else none
  | Highlight.span _ _ _ _ _ => none

/-- The candidate evidence list built by `_evidence_pool` before
deduplication (lines 81–101): validated ids of the first ≤ 5 retrieved docs,
then the case's validated artifact ids, then the `aid:L<n>` references of the
line-indexed highlights among the first 10 highlights. -/
def poolCandidates (docs : List RetrievalResult) (case : Option Case)
    (highlights : List Highlight) : List Str :=
  ((docs.take 5).filterMap (fun d => if d.id = [] then none else some d.id))
  ++ (match case with
      | some c => c.artifacts.filterMap artifactPoolKey
      | none => [])
  ++ ((highlights.take 10).filterMap lineRef)

/-- The dedup loop of `_evidence_pool` (lines 103–111): `seen` set plus
first-seen-order output. -/
def dedupGo (seen : List Str) : List Str → List Str
  | [] => []
  | x :: xs => if x ∈ seen then dedupGo seen xs else x :: dedupGo (x :: seen) xs

/-- `_evidence_pool` (lines 80–111). -/
def evidence_pool (docs : List RetrievalResult) (case : Option Case)
    (highlights : List Highlight) : List Str :=
  dedupGo [] (poolCandidates docs case highlights)

/-- Declarative first-occurrence deduplication: keep each element's first
occurrence, drop later duplicates. -/
def dedupFirst : List Str → List Str
  | [] => []
  | x :: xs => x :: dedupFirst (xs.filter (fun y => decide (y ≠ x)))
termination_by l => l.length
decreasing_by
  simp only [List.length_cons]
  exact Nat.lt_succ_of_le (List.length_filter_le _ _)

/-- `"[" in txt and "]" in txt` (line 273). -/
def hasBracketPair (s : Str) : Bool := decide ('[' ∈ s) && decide (']' ∈ s)

/-- The first two lines of `_ensure_text_has_citation`: strip the text, and
substitute the fixed fallback sentence when the result is empty. -/
def strippedOrDefault (text : Str) : Str :=
  let txt := pyStrip text
  if txt = [] then "I don\x27t have enough evidence to answer.".data else txt

/-- `_ensure_text_has_citation` (lines 269–277): strip; default message when
blank; keep text that already has both brackets; otherwise append the first
evidence id in brackets — or nothing when the pool is empty. -/
def ensure_text_has_citation (text : Str) (evidence_ids : List Str) : Str :=
  let txt := strippedOrDefault text
  if hasBracketPair txt then txt
  else
    match evidence_ids with
    | e :: _ => txt ++ " [".data ++ e ++ "]".data
    | [] => txt

/-- `_compute_kb_coverage` (lines 226–233); the `strict_mode` argument is
unused by the source. -/
def compute_kb_coverage (docs : List RetrievalResult) (_strict : Bool) : Str :=
  if docs = [] then "none".data
  else if 3 ≤ docs.length then "high".data
  else if 2 ≤ docs.length then "medium".data
  else "low".data

/-! ## Response assembly (`app/api.py`, continued) -/

/-- Helper for `pyTitle`: `prevAlpha` says whether the previous character was
a letter. -/
def pyTitleGo (prevAlpha : Bool) : Str → Str
  | [] => []
  | c :: cs =>
    (if c.isAlpha then (if prevAlpha then c.toLower else c.toUpper) else c)
      :: pyTitleGo c.isAlpha cs

/-- Python `str.title()` (ASCII): uppercase each letter that follows a
non-letter, lowercase the rest. -/
def pyTitle (s : Str) : Str := pyTitleGo false s

/-- `_generate_title` (lines 146–154). -/
def generate_title (message topic : Str) : Str :=
  let ml := lowerStr message
  if containsSub ml "what is".data then "What is ".data ++ pyTitle topic ++ "?".data
  else if containsSub ml "how does".data || containsSub ml "how do".data then
    "How ".data ++ pyTitle topic ++ " Works".data
  else if containsSub ml "why".data then "Why ".data ++ pyTitle topic ++ " Matters".data
  else pyTitle topic ++ " Overview".data

/-- `_generate_summary` (lines 157–166). -/
def generate_summary (final_answer : Str) (docs : List RetrievalResult) (strict : Bool) : Str :=
  let sentences := ((final_answer.splitOn '.').map pyStrip).filter (fun s => decide (s ≠ []))
  let parts := sentences.take 3
  let parts :=
    if parts = [] then
      if strict = true ∧ docs = [] then
        ["Course materials did not cover this topic.".data,
         "I can provide a general explanation, but it is not from the course.".data]
      else
        ["Here is a beginner-friendly explanation.".data,
         "More details are available in the sources below.".data]
    else parts
  joinSep ". ".data parts ++ ".".data

/-- `_render_mermaid` (lines 127–143).  `node_ids` is a dict keyed by node id
(a later duplicate id overwrites an earlier one, hence the reversed lookup);
the synthetic `N<i>` names are always non-empty, so `if src and tgt` is just
"both ids were found". -/
def render_mermaid (nodes : List ConceptNode) (edges : List ConceptEdge) : Str :=
  if nodes = [] then []
  else
    let entries := nodes.enum.map (fun p => (p.2.id, "N".data ++ natStr p.1))
    let lookup := fun id => (entries.reverse.find? (fun e => decide (e.1 = id))).map (·.2)
    let nodeLines := nodes.enum.map (fun p =>
      "    N".data ++ natStr p.1 ++ "[\"".data
        ++ (if p.2.label ≠ [] then p.2.label else p.2.id) ++ "\"]".data)
    let edgeLines := edges.filterMap (fun e =>
      match lookup e.source, lookup e.target with
      | some s, some t =>
        some ("    ".data ++ s ++ " -->|".data ++ e.relation ++ "| ".data ++ t)
      | _, _ => none)
    joinSep "\n".data ("graph TD".data :: (nodeLines ++ edgeLines))

/-- A diagram payload (`{"type": ..., "code": ..., "title": ...}`). -/
structure Diagram where
  type : Str
  code : Str
  title : Str
deriving DecidableEq

/-- The canned fallback diagram codes of `_build_diagram` (lines 174–179).
Note the dict key is `"exfiltration"` while detected topics use
`"data_exfiltration"`, faithfully kept. -/
def fallbackDiagramCode (topic : Str) : Str :=
  if topic = "phishing".data then
    "graph TD\nA[Attacker sends fake email] --> B[User clicks link]\nB --> C[Credentials stolen]".data
  else if topic = "lateral_movement".data then
    "graph TD\nA[Initial compromise] --> B[Steal credentials]\nB --> C[Move to another host]".data
  else if topic = "privilege_escalation".data then
    "graph TD\nA[Low-priv access] --> B[Exploit vulnerability]\nB --> C[Admin access]".data
  else if topic = "exfiltration".data then
    "graph TD\nA[Data discovered] --> B[Compress/encrypt] --> C[Transfer out]".data
  else "graph TD\nA[Question] --> B[Explanation]\nB --> C[Sources]".data

/-- `_build_diagram` (lines 169–180). -/
def build_diagram (nodes : List ConceptNode) (edges : List ConceptEdge) (topic : Str) : Diagram :=
  let mermaid := render_mermaid nodes edges
  if mermaid ≠ [] then
    { type := "mermaid".data, code := mermaid, title := pyTitle topic ++ " Flow".data }
  else
    { type := "mermaid".data, code := fallbackDiagramCode topic,
      title := pyTitle topic ++ " Overview".data }

/-- One normalized tutoring step (`{"step": ..., "evidence": ...}`). -/
structure TStep where
  step : Str
  evidence : List Str
deriving DecidableEq

/-- `_build_steps` (lines 183–190): number the first ≤ 8 steps starting at 1
(skipped empty steps still consume their number), default list when none
survive. -/
def build_steps (tutor_steps : List TStep) : List Str :=
  let steps := (tutor_steps.take 8).enum.filterMap (fun p =>
    if p.2.step ≠ [] then some (natStr (p.1 + 1) ++ ". ".data ++ p.2.step) else none)
  if steps = [] then
    ["1. Understand the key concepts.".data, "2. Review the diagram.".data,
     "3. Check the sources for details.".data]
  else steps

/-- One sources entry.  The Python dict key `"section"` is a Lean keyword and
is named `sec` here. -/
structure SourceEntry where
  id : Str
  title : Str
  sec : Option Str
  snippet : Str
  ref : Str
  confidence : ℚ
deriving DecidableEq

/-- `_build_sources` (lines 193–223).  Retrieval results carry no
`"citation"` key, so `d.get("citation")` is `None`. -/
def build_sources (docs : List RetrievalResult) (strict : Bool) : List SourceEntry :=
  let sources := docs.map (fun d =>
    { id := d.id, title := d.title, sec := none, snippet := d.quote, ref := d.id,
      confidence := (1 : ℚ) })
  if sources = [] then
    if strict then
      [{ id := "none".data, title := "No course sources found".data,
         sec := some "Policy".data,
         snippet := "Strict evidence mode is ON and no course materials matched this question.".data,
         ref := "none".data, confidence := 0 }]
    else
      [{ id := "general".data, title := "General knowledge".data,
         sec := some "General".data,
         snippet := "No course sources found; this answer uses general knowledge.".data,
         ref := "general".data, confidence := 0 }]
  else sources

/-- A lab highlight row (`{"start_line", "end_line", "label", "reason"}`). -/
structure LabHL where
  start_line : Int
  end_line : Int
  label : Str
  reason : Str
deriving DecidableEq

/-- The lab payload. -/
structure LabObj where
  enabled : Bool
  case_file : Str
  artifact_text : Str
  highlights : List LabHL
  next_steps : List Str
deriving DecidableEq

/-- `_build_lab` (lines 236–266): only for `phishing`/`lateral_movement`, only
with a case that has artifacts; line-indexed highlights become
start/end-line rows (span highlights have no `"line"` key and are skipped). -/
def build_lab (topic : Str) (case : Option Case) (highlights : List Highlight) : Option LabObj :=
  if ¬(topic = "phishing".data ∨ topic = "lateral_movement".data) then none
  else
    match case with
    | none => none
    | some c =>
      match c.artifacts with
      | [] => none
      | first :: _ =>
        let lab_highlights := highlights.filterMap (fun h =>
          match h with
          | Highlight.line _ ln _ reason _ =>
            some { start_line := ln, end_line := ln, label := reason, reason := reason }
          | Highlight.span _ _ _ _ _ => none)
        let next_steps :=
          if topic = "phishing".data then
            ["Identify spoofed sender".data, "Check suspicious links".data,
             "Verify headers".data, "Report as spam".data]
          else if topic = "lateral_movement".data then
            ["Identify compromised account".data, "Review log timestamps".data,
             "Check for unusual SMB/NTLM traffic".data, "Contain the host".data]
          else
            ["Review artifact".data, "Identify anomalies".data, "Document findings".data]
        some { enabled := true, case_file := first.artifact_id.getD "unknown.txt".data,
               artifact_text := first.text, highlights := lab_highlights,
               next_steps := next_steps }

/-- The practice payload of the response (`{"question", "hint", "answer"}`). -/
structure RPractice where
  question : Str
  hint : Str
  answer : Str
deriving DecidableEq

/-- The `/api/ask` response payload (the keys the endpoint returns). -/
structure Response where
  topic : Str
  title : Str
  summary : Str
  diagram : Diagram
  steps : List Str
  sources : List SourceEntry
  lab : Option LabObj
  practice : RPractice
  strict_evidence_used : Bool
  kb_coverage : Str
deriving DecidableEq

/-- Normalized practice payload (output of `_normalize_tutoring_payload`). -/
structure GPractice where
  question : Str
  choices : List Str
  correct_index : Int
  evidence_ids : List Str
  explanation : Str
deriving DecidableEq

/-- Normalized tutoring payload: the range of `_normalize_tutoring_payload`
(lines 305–350), i.e. `{"tutor": {"final_answer_text", "steps"}, "practice"}`. -/
structure GenOut where
  final_answer_text : Str
  steps : List TStep
  practice : GPractice
deriving DecidableEq

/-- The external collaborators of the pipeline, as opaque functions: the
generation service (`llm.rewrite_intent`, `llm.generate_tutoring`, the latter
already composed with `_normalize_tutoring_payload`) and the TF-IDF scoring
of the fitted vectorizer (`scores q i` is document `i`'s score for query `q`). -/
structure Oracles where
  rewrite : Str → List ChatTurn → Bool → Str
  scores : Str → Nat → ℚ
  generate : Str → List RetrievalResult → List ConceptNode → Case → List Highlight →
    Bool → Str → GenOut

/-- The static data loaded at process start: corpus (with its fitted TF-IDF
matrix shape/nnz), ontology and cases. -/
structure AppState where
  kb : List KBDoc
  vocab : Nat
  nnz : Nat
  onodes : List ConceptNode
  oedges : List ConceptEdge
  cases : List Case

/-- The deterministic refusal payload returned by the strict-mode scope check
(lines 394–418), inlined constants from the source. -/
def refusalResponse : Response :=
  { topic := "general".data,
    title := "Out of Scope".data,
    summary := "I can only help with course topics like phishing and lateral movement. Please rephrase your question as a cybersecurity incident or lab question.".data,
    diagram :=
      { type := "mermaid".data,
        code := "graph TD\nA[Out of Scope] --> B[Rephrase as Cybersecurity Question]".data,
        title := "Scope Guidance".data },
    steps :=
      ["1. Share the suspicious email text/headers or a short log snippet to analyze.".data,
       "2. Tell me what environment you are in (email client, Windows domain, etc.) so I can pick the right lab case.".data],
    sources :=
      [{ id := "kb_scope_001".data,
         title := "Evidence-Grounded Tutoring Scope".data,
         sec := some "Course Policy: Grounded Answers".data,
         snippet := "This tutor answers questions using course snippets (KB doc ids) and lab artifacts. When evidence is missing, request specific headers/log lines rather than guessing.".data,
         ref := "kb_scope_001".data,
         confidence := 1 }],
    lab := none,
    practice :=
      { question := "Which of the following is the best next step when a question is out of scope for the lab-based cybersecurity tutor?".data,
        hint := "Think about what helps the tutor stay grounded in course evidence.".data,
        answer := "Ask for relevant cybersecurity artifacts (email headers/logs) and re-scope the question.".data },
    strict_evidence_used := true,
    kb_coverage := "none".data }

/-- The `/api/ask` endpoint `ask` (lines 353–546).  Database bookkeeping
(`init_db`, session/user creation, the `Interaction` insert) only persists
data and never changes the returned payload; it is omitted, as are the dead
locals of the refusal branch (lines 371–392), the unused `diagram` variable
of line 434, and the evidence back-fill of lines 461–475, which mutates dict
fields that the response assembly below never reads.  A raised exception
(e.g. from `Librarian.retrieve`) becomes `Except.error` (HTTP 500). -/
def askModel (st : AppState) (o : Oracles) (req : AskRequest) : Except Str Response :=
  let topic_guess := detect_topic req.message req.ui_topic
  if req.strict_mode && !(isInScope req.message) then
    Except.ok refusalResponse
  else
    let rewritten := o.rewrite req.message req.chat_history req.strict_mode
    match retrieve st.kb st.vocab st.nnz rewritten (o.scores rewritten) 5 with
    | Except.error e => Except.error e
    | Except.ok retrieved_docs =>
    let mapped := omMap st.onodes st.oedges rewritten retrieved_docs
    let selected_nodes := mapped.1
    let selected_edges := mapped.2
    let topicArg := if topic_guess = "unknown".data then "phishing".data else topic_guess
    let selRes := select_and_highlight st.cases req.optional_artifacts topicArg selected_nodes
    let case := selRes.1
    let highlights := selRes.2
    let gen := o.generate rewritten retrieved_docs selected_nodes case highlights
      req.strict_mode topic_guess
    let evidence_ids := evidence_pool retrieved_docs (some case) highlights
    let final_answer := ensure_text_has_citation gen.final_answer_text evidence_ids
    let topic := if topic_guess = "unknown".data then "general".data else topic_guess
    Except.ok
      { topic := topic,
        title := generate_title req.message topic,
        summary := generate_summary final_answer retrieved_docs req.strict_mode,
        diagram := build_diagram selected_nodes selected_edges topic,
        steps := build_steps gen.steps,
        sources := build_sources retrieved_docs req.strict_mode,
        lab := build_lab topic (some case) highlights,
        practice :=
          { question := gen.practice.question,
            hint := "Think about the safest first action that preserves evidence and reduces risk.".data,
            answer := [] },
        strict_evidence_used := req.strict_mode,
        kb_coverage := compute_kb_coverage retrieved_docs req.strict_mode }

/-! ## Helper lemmas -/

theorem leadMatch_iff (nd hay : Str) : leadMatch nd hay = true ↔ hay.take nd.length = nd := by
  induction nd generalizing hay with
  | nil => simp [leadMatch]
  | cons a as_ ih =>
    cases hay with
    | nil => simp [leadMatch]
    | cons b bs =>
      simp only [leadMatch, Bool.and_eq_true, decide_eq_true_eq, List.length_cons,
        List.take_succ_cons, List.cons.injEq, ih]
      exact and_congr_left (fun _ => eq_comm)

theorem findSub_some_spec (hay nd : Str) (i : Nat) (h : findSub hay nd = some i) :
    occursAt hay nd i ∧ ∀ j, occursAt hay nd j → i ≤ j := by
  induction hay generalizing i with
  | nil =>
    rw [findSub] at h
    split at h
    · cases h
      exact ⟨(leadMatch_iff nd []).mp (by assumption), fun j _ => Nat.zero_le j⟩
    · simp at h
  | cons c t ih =>
    rw [findSub] at h
    split at h
    · cases h
      exact ⟨(leadMatch_iff nd (c :: t)).mp (by assumption), fun j _ => Nat.zero_le j⟩
    · rename_i hlm
      obtain ⟨i', hi', rfl⟩ := Option.map_eq_some'.mp h
      obtain ⟨hocc, hmin⟩ := ih i' hi'
      refine ⟨?_, ?_⟩
      · simpa [occursAt, List.drop_succ_cons] using hocc
      · intro j hj
        cases j with
        | zero =>
          exact absurd ((leadMatch_iff nd (c :: t)).mpr (by simpa [occursAt] using hj)) hlm
        | succ j' =>
          have : occursAt t nd j' := by simpa [occursAt, List.drop_succ_cons] using hj
          exact Nat.succ_le_succ (hmin j' this)

theorem mem_dedupFirst (x : Str) (l : List Str) : x ∈ dedupFirst l ↔ x ∈ l := by
  induction l using dedupFirst.induct with
  | case1 => simp [dedupFirst]
  | case2 y ys ih =>
    rw [dedupFirst, List.mem_cons, ih, List.mem_filter]
    by_cases hxy : x = y
    · simp [hxy]
    · simp [hxy, List.mem_cons]

theorem dedupFirst_nodup (l : List Str) : (dedupFirst l).Nodup := by
  induction l using dedupFirst.induct with
  | case1 => simp [dedupFirst]
  | case2 y ys ih =>
    rw [dedupFirst]
    refine List.Nodup.cons ?_ ih
    intro hy
    have := (mem_dedupFirst y _).mp hy
    simp [List.mem_filter] at this

theorem dedupFirst_sublist (l : List Str) : (dedupFirst l).Sublist l := by
  induction l using dedupFirst.induct with
  | case1 => simp [dedupFirst]
  | case2 y ys ih =>
    rw [dedupFirst]
    exact List.Sublist.cons₂ y (ih.trans (List.filter_sublist ys))

theorem dedupGo_eq (seen : List Str) (l : List Str) :
    dedupGo seen l = dedupFirst (l.filter (fun x => decide (x ∉ seen))) := by
  induction l generalizing seen with
  | nil => simp [dedupGo, dedupFirst]
  | cons x xs ih =>
    by_cases hx : x ∈ seen
    · simp [dedupGo, hx, ih]
    · rw [dedupGo, if_neg hx, List.filter_cons_of_pos (by simpa using hx), dedupFirst,
        List.filter_filter, ih]
      congr 1
      congr 1
      refine List.filter_congr ?_
      intro y _
      by_cases h1 : y = x <;> by_cases h2 : y ∈ seen <;> simp [h1, h2, List.mem_cons]

theorem evidence_pool_eq_dedupFirst (docs : List RetrievalResult) (case : Option Case)
    (hs : List Highlight) :
    evidence_pool docs case hs = dedupFirst (poolCandidates docs case hs) := by
  rw [evidence_pool, dedupGo_eq]
  congr 1
  have h : ∀ y ∈ poolCandidates docs case hs,
      (decide (y ∉ ([] : List Str))) = (fun _ : Str => true) y := by simp
  rw [List.filter_congr h, List.filter_true]

theorem foldl_count_aux (p : Str → Bool) (l : List Str) (s : Nat) :
    l.foldl (fun acc t => if p t then acc + 1 else acc) s = s + l.countP p := by
  induction l generalizing s with
  | nil => simp
  | cons x xs ih =>
    simp only [List.foldl_cons, List.countP_cons, ih]
    split <;> omega

theorem argsortAsc_perm {α : Type} [LinearOrder α] (g : Nat → α) (n : Nat) :
    (argsortAsc g n).Perm (List.range n) :=
  List.perm_insertionSort _ _

theorem argsortAsc_sorted {α : Type} [LinearOrder α] (g : Nat → α) (n : Nat) :
    List.Sorted (idxLe g) (argsortAsc g n) :=
  List.sorted_insertionSort _ _

theorem topIdx_length_le {α : Type} [LinearOrder α] (g : Nat → α) (n k : Nat) :
    (topIdx g n k).length ≤ k := by
  simp only [topIdx, List.length_take]
  exact Nat.min_le_left _ _

theorem topIdx_nodup {α : Type} [LinearOrder α] (g : Nat → α) (n k : Nat) :
    (topIdx g n k).Nodup := by
  refine List.Nodup.sublist (List.take_sublist _ _) ?_
  exact List.nodup_reverse.mpr (((argsortAsc_perm g n).nodup_iff).mpr (List.nodup_range n))

theorem topIdx_sorted {α : Type} [LinearOrder α] (g : Nat → α) (n k : Nat) :
    List.Pairwise (fun i j => idxLe g j i) (topIdx g n k) := by
  refine List.Pairwise.sublist (List.take_sublist _ _) ?_
  exact List.pairwise_reverse.mpr (argsortAsc_sorted g n)

theorem topIdx_scores_antitone {α : Type} [LinearOrder α] (g : Nat → α) (n k : Nat) :
    List.Pairwise (fun i j => g j ≤ g i) (topIdx g n k) := by
  refine (topIdx_sorted g n k).imp ?_
  intro a b h
  rcases h with h | ⟨h, _⟩
  · exact le_of_lt h
  · exact le_of_eq h

theorem topIdx_ties_reverse {α : Type} [LinearOrder α] (g : Nat → α) (n k : Nat) :
    List.Pairwise (fun i j => g i = g j → j < i) (topIdx g n k) := by
  have h := (topIdx_sorted g n k).and (topIdx_nodup g n k)
  refine h.imp ?_
  intro a b hab heq
  rcases hab.1 with hlt | ⟨_, hle⟩
  · exact absurd hlt (by rw [heq]; exact lt_irrefl _)
  · exact lt_of_le_of_ne hle (fun hc => hab.2 hc.symm)

theorem retrieve_ok_cases (kb : List KBDoc) (v z : Nat) (q : Str) (g : Nat → ℚ) (k : Nat)
    (l : List RetrievalResult) (h : retrieve kb v z q g k = Except.ok l) :
    l = [] ∨ l = retrieveCore kb g k := by
  cases kb with
  | nil =>
    simp only [retrieve] at h
    exact Or.inl (Except.ok.inj h).symm
  | cons d ds =>
    simp only [retrieve] at h
    split at h
    · simp at h
    · split at h
      · exact Or.inl (Except.ok.inj h).symm
      · split at h
        · exact Or.inl (Except.ok.inj h).symm
        · exact Or.inr (Except.ok.inj h).symm

/-! ## Concrete fixtures for witnesses and counterexamples -/

/-- A trivial instantiation of the external collaborators. -/
def oTriv : Oracles :=
  { rewrite := fun m _ _ => m,
    scores := fun _ _ => 0,
    generate := fun _ _ _ _ _ _ _ =>
      { final_answer_text := [], steps := [],
        practice := { question := [], choices := [], correct_index := 0,
                      evidence_ids := [], explanation := [] } } }

/-- A second, different instantiation of the external collaborators (used to
show the refusal path does not consult them). -/
def oAlt : Oracles :=
  { rewrite := fun _ _ _ => "completely different rewrite".data,
    scores := fun _ i => (i : ℚ) + 7,
    generate := fun _ _ _ _ _ _ _ =>
      { final_answer_text := "some generated answer [kb_x]".data,
        steps := [{ step := "a step".data, evidence := ["kb_x".data] }],
        practice := { question := "a question".data, choices := [], correct_index := 1,
                      evidence_ids := [], explanation := [] } } }

/-- A two-document corpus. -/
def kbTwo : List KBDoc :=
  [{ id := "kb_a".data, title := "Doc A".data, text := "alpha text".data },
   { id := "kb_b".data, title := "Doc B".data, text := "beta text".data }]

/-- A three-document corpus. -/
def kbThree : List KBDoc :=
  [{ id := "kb_phish_001".data, title := "Phishing Basics".data,
     text := "Phishing tricks users via fake email.".data },
   { id := "kb_lat_001".data, title := "Lateral Movement".data,
     text := "Attackers pivot with stolen credentials.".data },
   { id := "kb_exfil_001".data, title := "Exfiltration".data,
     text := "Data exfiltration moves data out.".data }]

/-- Bool test for span-indexed highlights. -/
def isSpanHL : Highlight → Bool
  | Highlight.span _ _ _ _ _ => true
  | Highlight.line _ _ _ _ _ => false

/-! ## Claim C1 -/

/-- Claim C1: for every request with `strict_mode` true whose message contains
none of the scope-keyword allow-list entries, `ask` returns the deterministic
refusal response — `kb_coverage = "none"`, `strict_evidence_used = true`, a
sources entry with id `kb_scope_001` — and the result does not depend on the
external collaborators (the generation service is not called on this path). -/
theorem c1_strict_refusal (st : AppState) (o o2 : Oracles) (req : AskRequest)
    (hstrict : req.strict_mode = true) (hscope : isInScope req.message = false) :
    askModel st o req = Except.ok refusalResponse ∧
    askModel st o req = askModel st o2 req ∧
    refusalResponse.kb_coverage = "none".data ∧
    refusalResponse.strict_evidence_used = true ∧
    "kb_scope_001".data ∈ refusalResponse.sources.map (fun s => s.id) := by
  have h1 : ∀ o3 : Oracles, askModel st o3 req = Except.ok refusalResponse := by
    intro o3
    simp [askModel, hstrict, hscope]
  exact ⟨h1 o, (h1 o).trans (h1 o2).symm, rfl, rfl, by decide⟩

/-- A concrete out-of-scope strict-mode request (from the repository's own
test suite). -/
def reqPoem : AskRequest :=
  { message := "Can you help me write a poem about sunsets?".data, chat_history := [],
    strict_mode := true, user_id := "anon".data, optional_artifacts := none,
    ui_topic := some "phishing".data }

/-- Witness for C1 at a concrete request and two different collaborator
instantiations. -/
theorem c1_strict_refusal_witness :
    askModel ⟨[], 0, 0, [], [], []⟩ oTriv reqPoem = Except.ok refusalResponse ∧
    askModel ⟨[], 0, 0, [], [], []⟩ oTriv reqPoem = askModel ⟨[], 0, 0, [], [], []⟩ oAlt reqPoem ∧
    refusalResponse.kb_coverage = "none".data ∧
    refusalResponse.strict_evidence_used = true ∧
    "kb_scope_001".data ∈ refusalResponse.sources.map (fun s => s.id) :=
  c1_strict_refusal ⟨[], 0, 0, [], [], []⟩ oTriv oAlt reqPoem rfl (by decide)

/-! ## Claim C2 -/

/-- Claim C2 counterexample: the claim "ties between equally scored documents
are broken by original corpus order (the document loaded earlier comes
first)" is false.  On a two-document corpus `retrieve` does not return at all
(the sparse-matrix truthiness guard raises), and the underlying top-k
selection logic (`np.argsort(scores)[::-1]`) puts the LATER document first on
equal scores, because reversing an ascending argsort reverses tie order. -/
theorem c2_counterexample :
    retrieve kbTwo 3 4 "attack basics".data (fun _ => 0) 5 = Except.error ambiguousMsg ∧
    (retrieveCore kbTwo (fun _ => 0) 5).map (fun r => r.id) = ["kb_b".data, "kb_a".data] ∧
    ("kb_b".data : Str) ≠ "kb_a".data :=
  ⟨rfl, by decide, by decide⟩

/-- Claim C2 (amended): whenever `retrieve` returns successfully, the result
is `[]` or `retrieveCore`; `retrieveCore` returns at most `top_k` results;
the selected index sequence is ordered by non-increasing score; and ties
between equal scores are broken by REVERSE corpus order (the later-loaded
document first). -/
theorem c2_retrieve_ordering :
    (∀ (kb : List KBDoc) (vocab nnz : Nat) (q : Str) (g : Nat → ℚ) (k : Nat)
        (l : List RetrievalResult),
        retrieve kb vocab nnz q g k = Except.ok l → l = [] ∨ l = retrieveCore kb g k) ∧
    (∀ (kb : List KBDoc) (g : Nat → ℚ) (k : Nat), (retrieveCore kb g k).length ≤ k) ∧
    (∀ (g : Nat → ℚ) (n k : Nat), List.Pairwise (fun i j => g j ≤ g i) (topIdx g n k)) ∧
    (∀ (g : Nat → ℚ) (n k : Nat), List.Pairwise (fun i j => g i = g j → j < i) (topIdx g n k)) := by
  refine ⟨retrieve_ok_cases, ?_, topIdx_scores_antitone, topIdx_ties_reverse⟩
  intro kb g k
  simp only [retrieveCore, List.length_map]
  exact topIdx_length_le g kb.length k

/-- Witness for C2 (amended) at concrete inputs. -/
theorem c2_retrieve_ordering_witness :
    (([] : List RetrievalResult) = [] ∨
      ([] : List RetrievalResult) = retrieveCore [] (fun _ => 0) 3) ∧
    (retrieveCore kbTwo (fun _ => 0) 2).length ≤ 2 :=
  ⟨c2_retrieve_ordering.1 [] 0 0 "q".data (fun _ => 0) 3 [] rfl,
   c2_retrieve_ordering.2.1 kbTwo (fun _ => 0) 2⟩

/-! ## Claim C3 -/

/-- Claim C3 (code bug): the "blank query or empty corpus ⇒ return `[]`,
never raise" contract fails on a non-empty corpus: the guard evaluates
`bool(self.tfidf)` on a sparse matrix with more than one element, which
raises `ValueError` before the blank-query test runs.  The empty-corpus half
of the claim does hold (`self.tfidf is None` falls through to `[]`). -/
theorem c3_blank_query_raises :
    retrieve kbTwo 3 4 "   ".data (fun _ => 0) 3 = Except.error ambiguousMsg ∧
    retrieve [] 0 0 "   ".data (fun _ => 0) 3 = Except.ok [] ∧
    retrieve [] 0 0 "any query at all".data (fun _ => 0) 3 = Except.ok [] :=
  ⟨rfl, rfl, rfl⟩

/-! ## Claim C6 -/

/-- Claim C6: the evidence pool is exactly the first-seen-order deduplication
of the candidate union (validated ids of the first ≤ 5 retrieved docs, the
case's validated artifact ids, and validated `aid:L<n>` references of the
line-indexed highlights among the first 10 highlights): it equals
`dedupFirst` of that union, has no duplicates, is a subsequence of the union
(order-preserving), and contains exactly the union's elements. -/
theorem c6_evidence_pool (docs : List RetrievalResult) (case : Option Case)
    (hs : List Highlight) :
    evidence_pool docs case hs = dedupFirst (poolCandidates docs case hs) ∧
    (evidence_pool docs case hs).Nodup ∧
    (evidence_pool docs case hs).Sublist (poolCandidates docs case hs) ∧
    ∀ x, x ∈ evidence_pool docs case hs ↔ x ∈ poolCandidates docs case hs := by
  refine ⟨evidence_pool_eq_dedupFirst docs case hs, ?_, ?_, ?_⟩
  · rw [evidence_pool_eq_dedupFirst]
    exact dedupFirst_nodup _
  · rw [evidence_pool_eq_dedupFirst]
    exact dedupFirst_sublist _
  · intro x
    rw [evidence_pool_eq_dedupFirst]
    exact mem_dedupFirst x _

/-! ## Claim C7 -/

/-- Claim C7 counterexample: with an empty evidence pool and a bracket-free
generated text, `_ensure_text_has_citation` appends nothing, so the
postprocessed answer contains no bracketed citation — the unconditional
"every final answer text contains a bracketed citation" is false. -/
theorem c7_counterexample :
    ensure_text_has_citation "hello".data [] = "hello".data ∧
    hasBracketPair (ensure_text_has_citation "hello".data []) = false :=
  ⟨rfl, rfl⟩

/-- Claim C7 (amended): when the evidence pool is NON-empty, the
postprocessed text always contains a bracket pair, and when the
(stripped/defaulted) text had none, the first pool id is appended in
brackets. -/
theorem c7_citation_enforced (text : Str) (e : Str) (rest : List Str) :
    hasBracketPair (ensure_text_has_citation text (e :: rest)) = true ∧
    (hasBracketPair (strippedOrDefault text) = false →
      ensure_text_has_citation text (e :: rest) =
        strippedOrDefault text ++ " [".data ++ e ++ "]".data) := by
  constructor
  · unfold ensure_text_has_citation
    by_cases hb : hasBracketPair (strippedOrDefault text) = true
    · rw [if_pos hb]
      exact hb
    · rw [if_neg hb]
      simp [hasBracketPair, List.mem_append]
  · intro hb
    unfold ensure_text_has_citation
    rw [if_neg (by simp [hb])]

/-- Witness for C7 (amended) at a concrete text and pool. -/
theorem c7_citation_enforced_witness :
    hasBracketPair (ensure_text_has_citation "hello".data ["kb_phish_001".data]) = true ∧
    ensure_text_has_citation "hello".data ["kb_phish_001".data] = "hello [kb_phish_001]".data :=
  ⟨(c7_citation_enforced "hello".data "kb_phish_001".data []).1,
   ((c7_citation_enforced "hello".data "kb_phish_001".data []).2 (by decide)).trans (by decide)⟩

/-! ## Claim C8 -/

/-- Claim C8, scoring as the claim words it (a REFINEMENT definition written
from the claim, for comparison with `omScore` from the source): 2 × the
COUNT of label tokens present, plus 1 × the count of description tokens
present, plus 1 per tag contained. -/
def c8ClaimScore (n : ConceptNode) (text : Str) : Nat :=
  2 * (splitWs (lowerStr n.label)).countP (fun tok => containsSub text tok)
    + 1 * (splitWs (lowerStr n.description)).countP (fun tok => containsSub text tok)
    + n.tags.countP (fun t => containsSub text (lowerStr t))

/-- A node whose label has two tokens, both matching. -/
def c8Node : ConceptNode :=
  { id := "lat1".data, label := "lateral movement".data, description := [], tags := [],
    topic := [] }

/-- Claim C8 counterexample: for a node labelled "lateral movement" and a
combined text containing both label tokens, the source's score is 2 (a single
`+= 2` when ANY label token matches) while the claim's count-based formula
gives 4. -/
theorem c8_counterexample :
    omScore c8Node "how attackers use lateral movement".data = 2 ∧
    c8ClaimScore c8Node "how attackers use lateral movement".data = 4 ∧
    omScore c8Node "how attackers use lateral movement".data ≠
      c8ClaimScore c8Node "how attackers use lateral movement".data :=
  ⟨rfl, rfl, by decide⟩

/-- Claim C8 (amended): the score is 2 if ANY label token occurs in the
combined text (else 0), plus 1 if ANY description token occurs (else 0),
plus 1 for each tag whose lowercase form is a substring of the combined
text. -/
theorem c8_score_formula (n : ConceptNode) (text : Str) :
    omScore n text =
      (if (splitWs (lowerStr n.label)).any (fun tok => containsSub text tok) then 2 else 0)
        + (if (splitWs (lowerStr n.description)).any (fun tok => containsSub text tok) then 1
           else 0)
        + n.tags.countP (fun t => containsSub text (lowerStr t)) := by
  unfold omScore
  rw [foldl_count_aux]
  split <;> split <;> omega

/-! ## Claim C9 -/

/-- A concrete in-scope non-strict request. -/
def reqPhish : AskRequest :=
  { message := "How does phishing email work?".data, chat_history := [], strict_mode := false,
    user_id := "anon".data, optional_artifacts := none, ui_topic := none }

/-- Claim C9 (code bug): for a non-blank query against a non-empty corpus the
claim expects `min(top_k, corpus size)` results and `kb_coverage = "high"`
for ≥ 3 documents; instead `retrieve` raises the sparse-truthiness
`ValueError` for every corpus whose TF-IDF matrix has more than one element,
and the `ask` pipeline propagates it as an HTTP 500, so no coverage is ever
computed. -/
theorem c9_nonempty_corpus_raises :
    retrieve kbThree 8 9 "phishing basics".data (fun _ => 0) 5 = Except.error ambiguousMsg ∧
    askModel ⟨kbThree, 8, 9, [], [], []⟩ oTriv reqPhish = Except.error ambiguousMsg :=
  ⟨rfl, rfl⟩

/-! ## Claim C10 -/

/-- Claim C10: a request with a non-blank `ui_topic` forces the detected
topic to the stripped, lowercased, hyphens-to-underscores transform of that
string — even when the result is none of the four known topics — and the
message-keyword heuristics are consulted only when `ui_topic` is absent or
blank. -/
theorem c10_ui_topic_forced (message ui : Str) :
    ((lowerStr (pyStrip ui)).map (fun c => if c = '-' then '_' else c) ≠ [] →
      detect_topic message (some ui) =
        (lowerStr (pyStrip ui)).map (fun c => if c = '-' then '_' else c)) ∧
    ((lowerStr (pyStrip ui)).map (fun c => if c = '-' then '_' else c) = [] →
      detect_topic message (some ui) = detect_topic message none) := by
  constructor
  · intro h
    simp [detect_topic, normalize_ui_topic, h]
  · intro h
    simp [detect_topic, normalize_ui_topic, h]

/-- Witness for C10 at a concrete unknown topic string with hyphens, mixed
case and padding. -/
theorem c10_ui_topic_forced_witness :
    detect_topic "tell me about gardening".data (some " Saturn-Rings ".data) =
      "saturn_rings".data :=
  ((c10_ui_topic_forced "tell me about gardening".data " Saturn-Rings ".data).1
    (by decide)).trans (by decide)

/-! ## Claim C4 -/

/-- Claim C4: every edge returned by `OntologyMapper.map` has both its source
and target ids among the ids of the returned nodes, and an edge of the loaded
graph is returned iff both its endpoints are selected. -/
theorem c4_edges_closed (nodes : List ConceptNode) (edges : List ConceptEdge) (q : Str)
    (docs : List RetrievalResult) :
    (∀ e ∈ (omMap nodes edges q docs).2,
        e.source ∈ (omMap nodes edges q docs).1.map (fun n => n.id) ∧
        e.target ∈ (omMap nodes edges q docs).1.map (fun n => n.id)) ∧
    (∀ e ∈ edges,
        (e ∈ (omMap nodes edges q docs).2 ↔
          e.source ∈ (omMap nodes edges q docs).1.map (fun n => n.id) ∧
          e.target ∈ (omMap nodes edges q docs).1.map (fun n => n.id))) := by
  constructor
  · intro e he
    simp only [omMap, List.mem_filter, decide_eq_true_eq] at he ⊢
    exact he.2
  · intro e he
    simp only [omMap, List.mem_filter, decide_eq_true_eq]
    exact ⟨fun h => h.2, fun h => ⟨he, h⟩⟩

/-- A tiny concrete ontology for the C4 witness. -/
def c4Nodes : List ConceptNode :=
  [{ id := "phish".data, label := "phishing".data, description := [], tags := [], topic := [] },
   { id := "cred".data, label := "credential theft".data, description := [], tags := [],
     topic := [] }]

/-- A concrete edge between the two C4 nodes. -/
def c4Edge : ConceptEdge :=
  { source := "phish".data, target := "cred".data, relation := "leads_to".data,
    description := [] }

/-- Witness for C4: on a query matching both nodes, the returned edge's
endpoints are among the returned node ids. -/
theorem c4_edges_closed_witness :
    c4Edge.source ∈
        (omMap c4Nodes [c4Edge] "phishing credential attack".data []).1.map (fun n => n.id) ∧
    c4Edge.target ∈
        (omMap c4Nodes [c4Edge] "phishing credential attack".data []).1.map (fun n => n.id) :=
  (c4_edges_closed c4Nodes [c4Edge] "phishing credential attack".data []).1 c4Edge (by decide)

/-! ## Claim C5 -/

theorem select_and_highlight_snd (cases : List Case) (opt : Option (List Artifact))
    (topic : Str) (nodes : List ConceptNode) :
    (select_and_highlight cases opt topic nodes).2 =
      ((select_and_highlight cases opt topic nodes).1).artifacts.flatMap
        (artifactEntries nodes) := rfl

/-- Claim C5: for every artifact of the selected case, every selected node
and every tag of that node with a non-empty lowercase form that occurs
(case-insensitively) in the artifact text — i.e. `findSub` returns an index —
the scan emits: the span-indexed highlight at exactly the FIRST occurrence
(the returned index is an occurrence and is minimal), carrying the node's
concept id and the ±30-character excerpt window clipped to the text; exactly
one span-indexed highlight among the entries produced for this (artifact,
node, tag) triple; and one line-indexed highlight with the node's concept id
and the 1-based line number for EVERY line containing the tag. -/
theorem c5_highlighting (cases : List Case) (opt : Option (List Artifact)) (topic : Str)
    (nodes : List ConceptNode) (art : Artifact) (node : ConceptNode) (tag : Str) (idx : Nat)
    (hart : art ∈ (select_and_highlight cases opt topic nodes).1.artifacts)
    (hnode : node ∈ nodes) (htag : tag ∈ node.tags)
    (hne : lowerStr tag ≠ [])
    (hfind : findSub (lowerStr art.text) (lowerStr tag) = some idx) :
    (occursAt (lowerStr art.text) (lowerStr tag) idx ∧
      ∀ j, occursAt (lowerStr art.text) (lowerStr tag) j → idx ≤ j) ∧
    Highlight.span (labArtId art) idx (idx + (lowerStr tag).length) node.id
        (pySlice art.text (idx - 30) (idx + (lowerStr tag).length + 30))
      ∈ (select_and_highlight cases opt topic nodes).2 ∧
    (tagEntries (labArtId art) (pySplitlines art.text) (lowerStr art.text) art.text node.id
        tag).countP isSpanHL = 1 ∧
    (∀ (i : Nat) (line : Str), (pySplitlines art.text)[i]? = some line →
      containsSub (lowerStr line) (lowerStr tag) = true →
      Highlight.line (labArtId art) ((i : Int) + 1) node.id (reasonFor tag) line
        ∈ (select_and_highlight cases opt topic nodes).2) := by
  have hchain : ∀ h : Highlight,
      h ∈ tagEntries (labArtId art) (pySplitlines art.text) (lowerStr art.text) art.text
            node.id tag →
      h ∈ (select_and_highlight cases opt topic nodes).2 := by
    intro h hh
    rw [select_and_highlight_snd]
    refine List.mem_flatMap.mpr ⟨art, hart, ?_⟩
    refine List.mem_flatMap.mpr ⟨node, hnode, ?_⟩
    exact List.mem_flatMap.mpr ⟨tag, htag, hh⟩
  refine ⟨findSub_some_spec _ _ _ hfind, ?_, ?_, ?_⟩
  · refine hchain _ ?_
    simp only [tagEntries]
    rw [if_neg hne, hfind]
    exact List.mem_append_right _ (List.mem_singleton.mpr rfl)
  · simp only [tagEntries]
    rw [if_neg hne, hfind, List.countP_append]
    have hlz : (List.countP isSpanHL
        (((pySplitlines art.text).enum).filterMap (fun p =>
          if containsSub (lowerStr p.2) (lowerStr tag) = true then
            some (Highlight.line (labArtId art) ((p.1 : Int) + 1) node.id (reasonFor tag) p.2)
          else none))) = 0 := by
      refine List.countP_eq_zero.mpr ?_
      intro a ha
      obtain ⟨p, _, hpa⟩ := List.mem_filterMap.mp ha
      by_cases hc : containsSub (lowerStr p.2) (lowerStr tag) = true
      · rw [if_pos hc] at hpa
        cases hpa
        simp [isSpanHL]
      · rw [if_neg hc] at hpa
        cases hpa
    rw [hlz]
    rfl
  · intro i line hline hcont
    refine hchain _ ?_
    simp only [tagEntries]
    rw [if_neg hne]
    refine List.mem_append_left _ ?_
    refine List.mem_filterMap.mpr ⟨(i, line), ?_, ?_⟩
    · exact List.mem_enum_iff_getElem?.mpr hline
    · rw [if_pos hcont]

/-- A concrete lab artifact for the C5 witness. -/
def c5Art : Artifact :=
  { artifact_id := some "email_1001.txt".data, alt_id := none,
    text := "From: spoofed@bank.com\nClick the Phishing link now\nRegards".data }

/-- A concrete case holding `c5Art`. -/
def c5Case : Case :=
  { case_id := "case_phish_1".data, topic := "phishing".data, artifacts := [c5Art] }

/-- A concrete concept node tagged `phishing`. -/
def c5Node : ConceptNode :=
  { id := "phish".data, label := "phishing".data, description := [],
    tags := ["phishing".data], topic := "phishing".data }

/-- Witness for C5 at a concrete case, node and tag (the tag occurs with a
different letter case in the artifact, exercising the case-insensitive
match; the first occurrence starts at character 33). -/
theorem c5_highlighting_witness :
    (occursAt (lowerStr c5Art.text) (lowerStr "phishing".data) 33 ∧
      ∀ j, occursAt (lowerStr c5Art.text) (lowerStr "phishing".data) j → 33 ≤ j) ∧
    Highlight.span (labArtId c5Art) 33 (33 + (lowerStr "phishing".data).length) c5Node.id
        (pySlice c5Art.text (33 - 30) (33 + (lowerStr "phishing".data).length + 30))
      ∈ (select_and_highlight [c5Case] none "phishing".data [c5Node]).2 ∧
    (tagEntries (labArtId c5Art) (pySplitlines c5Art.text) (lowerStr c5Art.text) c5Art.text
        c5Node.id "phishing".data).countP isSpanHL = 1 ∧
    (∀ (i : Nat) (line : Str), (pySplitlines c5Art.text)[i]? = some line →
      containsSub (lowerStr line) (lowerStr "phishing".data) = true →
      Highlight.line (labArtId c5Art) ((i : Int) + 1) c5Node.id (reasonFor "phishing".data) line
        ∈ (select_and_highlight [c5Case] none "phishing".data [c5Node]).2) :=
  c5_highlighting [c5Case] none "phishing".data [c5Node] c5Art c5Node "phishing".data 33
    (by decide) (by decide) (by decide) (by decide) (by decide)
